import Mathlib

/-!
Verification of the BLE WiFi provisioning service of
`lib/include/aws_ble_wifi_provisioning.h`.

The repository ships the declarative header only: constants, JSON key
macros, the request/response structs, the event enumeration and the
`WifiProvService_t` state struct are embedded here directly from that
header.  The bodies of the store operations, the request handlers, the
auto-connect task and the lifecycle functions are not part of the
source tree; they are modelled from the specification, as marked on
each definition.
-/

namespace WifiProv

/-! ## Constants from the header -/

/-- `wifiProvMAX_SAVED_NETWORKS` — maximum number of WiFi networks that can
be provisioned. -/
def wifiProvMAX_SAVED_NETWORKS : Nat := 8

/-- `wifiProvSAVED_NETWORKS_CONNECTION_INTERVAL_MS` — delay between
connection attempts over the saved list of WiFi networks. -/
def wifiProvSAVED_NETWORKS_CONNECTION_INTERVAL_MS : Nat := 1000

/-- `wifiProvINVALID_NETWORK_RSSI` sentinel. -/
def wifiProvINVALID_NETWORK_RSSI : Int := -100

/-- `wifiProvINVALID_NETWORK_INDEX` sentinel. -/
def wifiProvINVALID_NETWORK_INDEX : Int := -1

/-- `wifiProvNUM_CHARS` — number of GATT characteristics. -/
def wifiProvNUM_CHARS : Nat := 4

/-- `wifiProvNUM_DESCRS` — number of GATT descriptors. -/
def wifiProvNUM_DESCRS : Nat := 4

/-! ## JSON keys of the wire protocol (header macros) -/

def wifiProvMAX_NETWORKS_KEY : String := "maxNetworks"
def wifiProvSCAN_TIMEOUT_KEY : String := "timeout"
def wifiProvKEY_MGMT_KEY : String := "security"
def wifiProvSSID_KEY : String := "ssid"
def wifiProvBSSID_KEY : String := "bssid"
def wifiFREQ_KEY : String := "freqMhz"
def wifiRSSI_KEY : String := "rssi"
def wifiProvPSK_KEY : String := "psk"
def wifiProvSTATUS_KEY : String := "status"
def wifiProvHIDDEN_KEY : String := "hidden"
def wifiProvCONNECTED_KEY : String := "connected"
def wifiProvINDEX_KEY : String := "index"
def wifiProvNEWINDEX_KEY : String := "newIndex"

/-- `wifiProvNUM_NETWORK_INFO_MESG_PARAMS` — fields in one NetworkInfo
response message. -/
def wifiProvNUM_NETWORK_INFO_MESG_PARAMS : Nat := 8

/-- `wifiProvNUM_STATUS_MESG_PARAMS` — fields in a status-only response. -/
def wifiProvNUM_STATUS_MESG_PARAMS : Nat := 1

/-- All JSON keys defined by the header, in the header's order. -/
def allProtocolKeys : List String :=
  [wifiProvMAX_NETWORKS_KEY, wifiProvSCAN_TIMEOUT_KEY, wifiProvKEY_MGMT_KEY,
   wifiProvSSID_KEY, wifiProvBSSID_KEY, wifiFREQ_KEY, wifiRSSI_KEY,
   wifiProvPSK_KEY, wifiProvSTATUS_KEY, wifiProvHIDDEN_KEY,
   wifiProvCONNECTED_KEY, wifiProvINDEX_KEY, wifiProvNEWINDEX_KEY]

/-- Modelled from the spec: the 8 JSON fields carried by each per-network
entry of a List response (the response-building code is not in the tree;
§3 NetworkInfo lists status, SSID, BSSID, security, RSSI, hidden,
connected and saved-index). -/
def networkInfoMesgKeys : List String :=
  [wifiProvSTATUS_KEY, wifiProvSSID_KEY, wifiProvBSSID_KEY,
   wifiProvKEY_MGMT_KEY, wifiRSSI_KEY, wifiProvHIDDEN_KEY,
   wifiProvCONNECTED_KEY, wifiProvINDEX_KEY]

/-- Modelled from the spec: Save/Edit/Delete responses carry only the
`status` field (the response-building code is not in the tree). -/
def statusMesgKeys : List String := [wifiProvSTATUS_KEY]

/-! ## Event bits (`WifiProvEvent_t` in the header) -/

def eWIFIPROVStarted : Nat := 0x01
def eWIFIPROVConnect : Nat := 0x02
def eWIFIPROVConnected : Nat := 0x04
def eWIFIPROVStopped : Nat := 0x08
def eWIFIPROVDeleted : Nat := 0x10
def eWIFIPROVFailed : Nat := 0x20

/-- `ALL_EVENTS` — bitwise or of every event flag. -/
def ALL_EVENTS : Nat :=
  eWIFIPROVStarted ||| eWIFIPROVConnect ||| eWIFIPROVConnected |||
  eWIFIPROVStopped ||| eWIFIPROVDeleted ||| eWIFIPROVFailed

/-! ## Data model -/

/-- Modelled from the spec: one saved credential entry (the C profile type
`WIFINetworkProfile_t` lives in the external `aws_wifi.h`, not in this
tree): SSID, optional BSSID bytes, enumerated security kind, pre-shared
key, hidden flag. -/
structure SavedNetwork where
  ssid : String
  bssid : List Nat
  security : Nat
  psk : String
  hidden : Bool
deriving DecidableEq

/-- Modelled from the spec: error outcomes of the Network Store contract
(§4.1 / §7): `Full`, `NotFound`, `InvalidIndex`. -/
inductive StoreError where
  | Full
  | NotFound
  | InvalidIndex
deriving DecidableEq

/-- `count()` of the Network Store. -/
def count (s : List SavedNetwork) : Nat := s.length

/-- Modelled from the spec: `insert` appends at the end (lowest priority)
unless the store is at capacity (`wifiProvMAX_SAVED_NETWORKS`), in which
case it fails with `Full`.  On success it returns the new store and the
index at which the entry landed. -/
def insertNetwork (s : List SavedNetwork) (e : SavedNetwork) :
    Except StoreError (List SavedNetwork × Nat) :=
  if s.length < wifiProvMAX_SAVED_NETWORKS then
    .ok (s ++ [e], s.length)
  else
    .error .Full

/-- Modelled from the spec: the caller of `insert` rejects the write on
`Full` and keeps its store: this wrapper returns the resulting store
(unchanged on failure) together with the success flag. -/
def insertOrKeep (s : List SavedNetwork) (e : SavedNetwork) :
    List SavedNetwork × Bool :=
  match insertNetwork s e with
  | .ok (t, _) => (t, true)
  | .error _ => (s, false)

/-- Modelled from the spec: `overwrite(idx, entry)` re-saves an existing
entry in place, failing with `NotFound` when the index is out of range. -/
def overwriteNetwork (s : List SavedNetwork) (idx : Nat) (e : SavedNetwork) :
    Except StoreError (List SavedNetwork) :=
  if idx < s.length then .ok (s.set idx e) else .error .NotFound

/-- Modelled from the spec: `move(cur, new)` rotates the entry at `cur` to
position `new`, shifting the entries in between by one; both indices must
be in range or the call fails with `InvalidIndex`. -/
def moveNetwork (s : List SavedNetwork) (cur new : Nat) :
    Except StoreError (List SavedNetwork) :=
  if h : cur < s.length then
    if new < s.length then
      .ok ((s.eraseIdx cur).insertIdx new (s.get ⟨cur, h⟩))
    else
      .error .InvalidIndex
  else
    .error .InvalidIndex

/-- Modelled from the spec: `remove(idx)` deletes the entry at `idx` and
shifts all subsequent entries up by one index; out-of-range indices fail
with `NotFound`. -/
def removeNetwork (s : List SavedNetwork) (idx : Nat) :
    Except StoreError (List SavedNetwork) :=
  if idx < s.length then .ok (s.eraseIdx idx) else .error .NotFound

example : count [] = 0 := rfl
example : insertOrKeep [] ⟨"Home", [], 2, "secret1", false⟩ =
    ([⟨"Home", [], 2, "secret1", false⟩], true) := rfl

/-! ## NetworkInfo response projection (`WifiNetworkInfo_t` in the header) -/

/-- `WifiNetworkInfo_t` from the header: status, SSID, BSSID, security,
RSSI (`int8_t`), hidden and connected flags (`uint8_t`), saved index
(`int32_t`). -/
structure WifiNetworkInfo where
  xStatus : Nat
  pcSSID : String
  pucBSSID : List Nat
  xSecurity : Nat
  cRSSI : Int
  ucHidden : Nat
  ucConnected : Nat
  sSavedIdx : Int
deriving DecidableEq

/-- Modelled from the spec: projection of a live scan-only result (not
saved) into a `WifiNetworkInfo` response; the response-building handler
code is not in the tree.  A scan-only result carries no saved index, so
`sSavedIdx` is the `-1` sentinel, and an unknown signal strength maps to
the `-100` RSSI sentinel. -/
def networkInfoOfScanResult (status : Nat) (ssid : String) (bssid : List Nat)
    (security : Nat) (rssi : Option Int) (hidden connected : Nat) :
    WifiNetworkInfo :=
  { xStatus := status
    pcSSID := ssid
    pucBSSID := bssid
    xSecurity := security
    cRSSI := match rssi with
             | some r => r
             | none => wifiProvINVALID_NETWORK_RSSI
    ucHidden := hidden
    ucConnected := connected
    sSavedIdx := wifiProvINVALID_NETWORK_INDEX }

/-- Modelled from the spec: projection of a saved entry at priority `idx`
into a `WifiNetworkInfo` response; a saved entry enumerated without a live
scan has no signal-strength measurement, so `cRSSI` is the `-100`
sentinel. -/
def networkInfoOfSaved (e : SavedNetwork) (idx : Nat) (connected : Nat)
    (status : Nat) : WifiNetworkInfo :=
  { xStatus := status
    pcSSID := e.ssid
    pucBSSID := e.bssid
    xSecurity := e.security
    cRSSI := wifiProvINVALID_NETWORK_RSSI
    ucHidden := if e.hidden then 1 else 0
    ucConnected := connected
    sSavedIdx := (idx : Int) }

/-! ## Service state (`WifiProvService_t` in the header) -/

/-- `WifiProvService_t` from the header, with the C fields embedded as:
`usNotifyClientEnabled : uint16_t` and `usBLEConnId : uint16_t` as `Nat`,
the event-group bits as a `Nat` bitmask, the network array plus
`usNumNetworks` as a list (its length is the count), `usNextConnectIdx`
as `Nat`, `sConnectedIdx : int16_t` as `Int`, `xInit : BaseType_t` as
`Bool`, and the connect-task handle as a running flag.  The GATT service
pointer belongs to the external transport stack and is omitted. -/
structure WifiProvService where
  usNotifyClientEnabled : Nat
  usBLEConnId : Nat
  eventBits : Nat
  networks : List SavedNetwork
  usNextConnectIdx : Nat
  sConnectedIdx : Int
  xInit : Bool
  taskRunning : Bool
deriving DecidableEq

/-- Modelled from the spec: the freshly initialized singleton state —
no notifications enabled, no events raised, empty store, no connected
network, task not yet started. -/
def initService : WifiProvService :=
  { usNotifyClientEnabled := 0
    usBLEConnId := 0
    eventBits := 0
    networks := []
    usNextConnectIdx := 0
    sConnectedIdx := wifiProvINVALID_NETWORK_INDEX
    xInit := true
    taskRunning := false }

/-- Modelled from the spec: the pre-`Init` singleton state. -/
def uninitService : WifiProvService :=
  { initService with xInit := false, sConnectedIdx := 0 }

/-! ## Service-level store operations (handlers' commit steps) -/

/-- Modelled from the spec: the Save handler's insert commit — append the
entry via the store's `insert`, leaving the rest of the service state
unchanged. -/
def svcInsert (s : WifiProvService) (e : SavedNetwork) :
    Except StoreError WifiProvService :=
  match insertNetwork s.networks e with
  | .ok (l, _) => .ok { s with networks := l }
  | .error err => .error err

/-- Modelled from the spec: the Save handler's overwrite commit. -/
def svcOverwrite (s : WifiProvService) (idx : Nat) (e : SavedNetwork) :
    Except StoreError WifiProvService :=
  match overwriteNetwork s.networks idx e with
  | .ok l => .ok { s with networks := l }
  | .error err => .error err

/-- Modelled from the spec: the Edit handler's commit — `move(cur, new)`
on the store, leaving the rest of the service state unchanged. -/
def svcMove (s : WifiProvService) (cur new : Nat) :
    Except StoreError WifiProvService :=
  match moveNetwork s.networks cur new with
  | .ok l => .ok { s with networks := l }
  | .error err => .error err

/-- Modelled from the spec: the Delete handler's commit — `remove(idx)`
on the store; if the removed index equals the currently-connected index
the service clears `sConnectedIdx` to the `-1` sentinel. -/
def svcRemove (s : WifiProvService) (idx : Nat) :
    Except StoreError WifiProvService :=
  match removeNetwork s.networks idx with
  | .ok l =>
      .ok { s with
              networks := l
              sConnectedIdx :=
                if s.sConnectedIdx = (idx : Int) then
                  wifiProvINVALID_NETWORK_INDEX
                else
                  s.sConnectedIdx }
  | .error err => .error err

/-- Modelled from the spec: the Auto-Connect Task's success commit at a
valid index — record `sConnectedIdx = idx` and raise the `Connected`
event bit; out-of-range indices are never committed. -/
def svcConnect (s : WifiProvService) (idx : Nat) : WifiProvService :=
  if idx < s.networks.length then
    { s with sConnectedIdx := (idx : Int)
             eventBits := s.eventBits ||| eWIFIPROVConnected }
  else
    s

/-- Modelled from the spec: the disconnect-event commit — no network is
connected any more. -/
def svcDisconnect (s : WifiProvService) : WifiProvService :=
  { s with sConnectedIdx := wifiProvINVALID_NETWORK_INDEX }

/-! ## Lifecycle API -/

/-- Modelled from the spec: `WIFI_PROVISION_Init` — creates the GATT
service and allocates primitives once; calling it while already
initialized is a no-op returning success.  (Allocation/registration
failures of the external stack are outside this model.) -/
def WIFI_PROVISION_Init (s : WifiProvService) : WifiProvService × Bool :=
  if s.xInit then (s, true) else (initService, true)

/-- Modelled from the spec: `WIFI_PROVISION_Start` — spawns/resumes the
background connect task and raises the `Started` event; a no-op when
already started; fails before `Init`. -/
def WIFI_PROVISION_Start (s : WifiProvService) : WifiProvService × Bool :=
  if s.xInit then
    ({ s with taskRunning := true
              eventBits := s.eventBits ||| eWIFIPROVStarted }, true)
  else
    (s, false)

/-- Modelled from the spec: `WIFI_PROVISION_Stop` — parks the background
task, disables outbound notifications and raises the `Stopped` event,
without destroying state; fails before `Init`. -/
def WIFI_PROVISION_Stop (s : WifiProvService) : WifiProvService × Bool :=
  if s.xInit then
    ({ s with taskRunning := false
              usNotifyClientEnabled := 0
              eventBits := s.eventBits ||| eWIFIPROVStopped }, true)
  else
    (s, false)

/-- Modelled from the spec: `WIFI_PROVISION_Delete` — full teardown,
returning the singleton to its pre-`Init` state; fails before `Init`. -/
def WIFI_PROVISION_Delete (s : WifiProvService) : WifiProvService × Bool :=
  if s.xInit then (uninitService, true) else (s, false)

/-- Modelled from the spec: `WIFI_PROVISION_IsConnected(xWaitTicks)` —
a non-consuming wait on the event group for the `Connected` bit.  The
event-group contents over the waiting window are the trace
`bits : Nat → Nat` (tick number to bitmask); the wait succeeds exactly
when the `eWIFIPROVConnected` bit is up at some tick within the window
and returns the trace untouched (`xClearOnExit` false). -/
def WIFI_PROVISION_IsConnected (bits : Nat → Nat) (xWaitTicks : Nat) :
    Bool × (Nat → Nat) :=
  ((List.range (xWaitTicks + 1)).any
     (fun t => (bits t &&& eWIFIPROVConnected) != 0), bits)

/-! ## Notification gating -/

/-- Modelled from the spec: the CCFG-descriptor write handler — records
the writing connection in `usBLEConnId` and sets or clears that
descriptor's bit in the single 16-bit `usNotifyClientEnabled` bitmask. -/
def setNotifyEnabled (s : WifiProvService) (connId : Nat)
    (d : Fin wifiProvNUM_DESCRS) (enable : Bool) : WifiProvService :=
  { s with
      usBLEConnId := connId
      usNotifyClientEnabled :=
        if enable then
          s.usNotifyClientEnabled ||| (1 <<< (d : Nat))
        else
          s.usNotifyClientEnabled &&& (0xFFFF ^^^ (1 <<< (d : Nat))) }

/-- Modelled from the spec: a response notification on endpoint `d` is
delivered to connection `connId` only when that connection is the one
recorded in `usBLEConnId` and the endpoint's notify bit is set. -/
def notifyAllowed (s : WifiProvService) (connId : Nat)
    (d : Fin wifiProvNUM_DESCRS) : Bool :=
  s.usBLEConnId == connId && s.usNotifyClientEnabled.testBit (d : Nat)

/-! ## Auto-Connect Task state machine -/

/-- Modelled from the spec: the Auto-Connect Task's control states
(§4.4). -/
inductive ConnState where
  | Idle
  | Connecting (idx : Nat)
  | Connected (idx : Nat)
  | ExhaustedWaiting
  | Stopped
deriving DecidableEq

/-- Modelled from the spec: the events the Auto-Connect Task reacts to —
start, the outcome of one connection attempt, the retry timer carrying
the elapsed wait in milliseconds, an external disconnect carrying
`usNextConnectIdx`, and the `Stop`/`Delete` requests. -/
inductive ConnEvent where
  | startEv
  | attemptSuccess
  | attemptFailure
  | retryTimer (elapsedMs : Nat)
  | disconnectEv (nextIdx : Nat)
  | stopReq
  | deleteReq
deriving DecidableEq

/-- Modelled from the spec: one transition of the Auto-Connect Task over
a store of `count` entries (§4.4).  Failure at `idx` advances to
`idx + 1` while in range and otherwise exhausts the list;
`ExhaustedWaiting` restarts from index 0 once the fixed retry interval
has elapsed; only `Stop`/`Delete` reach `Stopped`; every unmatched
state/event pair leaves the state unchanged. -/
def connectTaskStep (cnt : Nat) (s : ConnState) (e : ConnEvent) :
    ConnState :=
  match s, e with
  | _, .stopReq => .Stopped
  | _, .deleteReq => .Stopped
  | .Idle, .startEv => if 0 < cnt then .Connecting 0 else .ExhaustedWaiting
  | .Connecting i, .attemptSuccess => .Connected i
  | .Connecting i, .attemptFailure =>
      if i + 1 < cnt then .Connecting (i + 1) else .ExhaustedWaiting
  | .ExhaustedWaiting, .retryTimer ms =>
      if wifiProvSAVED_NETWORKS_CONNECTION_INTERVAL_MS ≤ ms then
        .Connecting 0
      else
        .ExhaustedWaiting
  | .Connected _, .disconnectEv next => .Connecting next
  | st, _ => st

/-! ## Reachable service states -/

/-- Modelled from the spec: the service states reachable from a fresh
`Init` through the lifecycle API, the handlers' store commits, the
auto-connect commits and the descriptor writes. -/
inductive ReachableService : WifiProvService → Prop where
  | init : ReachableService initService
  | initStep (s : WifiProvService) : ReachableService s →
      ReachableService (WIFI_PROVISION_Init s).1
  | startStep (s : WifiProvService) : ReachableService s →
      ReachableService (WIFI_PROVISION_Start s).1
  | stopStep (s : WifiProvService) : ReachableService s →
      ReachableService (WIFI_PROVISION_Stop s).1
  | deleteStep (s : WifiProvService) : ReachableService s →
      ReachableService (WIFI_PROVISION_Delete s).1
  | insertStep (s : WifiProvService) (e : SavedNetwork)
      (s' : WifiProvService) : ReachableService s →
      svcInsert s e = .ok s' → ReachableService s'
  | overwriteStep (s : WifiProvService) (idx : Nat) (e : SavedNetwork)
      (s' : WifiProvService) : ReachableService s →
      svcOverwrite s idx e = .ok s' → ReachableService s'
  | moveStep (s : WifiProvService) (cur new : Nat)
      (s' : WifiProvService) : ReachableService s →
      svcMove s cur new = .ok s' → ReachableService s'
  | removeStep (s : WifiProvService) (idx : Nat)
      (s' : WifiProvService) : ReachableService s →
      svcRemove s idx = .ok s' → ReachableService s'
  | connectStep (s : WifiProvService) (idx : Nat) : ReachableService s →
      ReachableService (svcConnect s idx)
  | disconnectStep (s : WifiProvService) : ReachableService s →
      ReachableService (svcDisconnect s)
  | notifyStep (s : WifiProvService) (connId : Nat)
      (d : Fin wifiProvNUM_DESCRS) (enable : Bool) : ReachableService s →
      ReachableService (setNotifyEnabled s connId d enable)

/-- The spec's invariant on the connected-index cursor: `sConnectedIdx`
is either the `-1` sentinel or a valid index into the store. -/
def connectedIdxValid (s : WifiProvService) : Prop :=
  s.sConnectedIdx = wifiProvINVALID_NETWORK_INDEX ∨
    (0 ≤ s.sConnectedIdx ∧ s.sConnectedIdx < (s.networks.length : Int))

instance (s : WifiProvService) : Decidable (connectedIdxValid s) := by
  unfold connectedIdxValid
  exact inferInstance

/-! ## Helper lemmas -/

/-- A concrete entry for tests and witnesses. -/
def mkNet (n : Nat) : SavedNetwork := ⟨"", [n], 0, "", false⟩

/-- Inversion of a successful `svcInsert`. -/
theorem svcInsert_ok (s : WifiProvService) (e : SavedNetwork)
    (s' : WifiProvService) (h : svcInsert s e = .ok s') :
    s.networks.length < wifiProvMAX_SAVED_NETWORKS ∧
      s' = { s with networks := s.networks ++ [e] } := by
  unfold svcInsert insertNetwork at h
  by_cases hl : s.networks.length < wifiProvMAX_SAVED_NETWORKS
  · rw [if_pos hl] at h
    simp only [Except.ok.injEq] at h
    exact ⟨hl, h.symm⟩
  · rw [if_neg hl] at h
    exact absurd h (by simp)

/-- Inversion of a successful `svcOverwrite`. -/
theorem svcOverwrite_ok (s : WifiProvService) (idx : Nat)
    (e : SavedNetwork) (s' : WifiProvService)
    (h : svcOverwrite s idx e = .ok s') :
    idx < s.networks.length ∧
      s' = { s with networks := s.networks.set idx e } := by
  unfold svcOverwrite overwriteNetwork at h
  by_cases hl : idx < s.networks.length
  · rw [if_pos hl] at h
    simp only [Except.ok.injEq] at h
    exact ⟨hl, h.symm⟩
  · rw [if_neg hl] at h
    exact absurd h (by simp)

/-- Inversion of a successful `svcMove`. -/
theorem svcMove_ok (s : WifiProvService) (cur new : Nat)
    (s' : WifiProvService) (h : svcMove s cur new = .ok s') :
    ∃ hc : cur < s.networks.length, new < s.networks.length ∧
      s' = { s with networks :=
               ((s.networks.eraseIdx cur).insertIdx new
                  (s.networks.get ⟨cur, hc⟩)) } := by
  unfold svcMove moveNetwork at h
  by_cases hc : cur < s.networks.length
  · rw [dif_pos hc] at h
    by_cases hn : new < s.networks.length
    · rw [if_pos hn] at h
      simp only [Except.ok.injEq] at h
      exact ⟨hc, hn, h.symm⟩
    · rw [if_neg hn] at h
      exact absurd h (by simp)
  · rw [dif_neg hc] at h
    exact absurd h (by simp)

/-- Inversion of a successful `svcRemove`. -/
theorem svcRemove_ok (s : WifiProvService) (idx : Nat)
    (s' : WifiProvService) (h : svcRemove s idx = .ok s') :
    idx < s.networks.length ∧
      s' = { s with
               networks := s.networks.eraseIdx idx
               sConnectedIdx :=
                 if s.sConnectedIdx = (idx : Int) then
                   wifiProvINVALID_NETWORK_INDEX
                 else
                   s.sConnectedIdx } := by
  unfold svcRemove removeNetwork at h
  by_cases hl : idx < s.networks.length
  · rw [if_pos hl] at h
    simp only [Except.ok.injEq] at h
    exact ⟨hl, h.symm⟩
  · rw [if_neg hl] at h
    exact absurd h (by simp)

/-- Every reachable service state holds at most
`wifiProvMAX_SAVED_NETWORKS` entries. -/
theorem reachable_length_le (s : WifiProvService)
    (hs : ReachableService s) :
    s.networks.length ≤ wifiProvMAX_SAVED_NETWORKS := by
  induction hs with
  | init => simp [initService, wifiProvMAX_SAVED_NETWORKS]
  | initStep s hs ih =>
      unfold WIFI_PROVISION_Init
      split
      · exact ih
      · simp [initService, wifiProvMAX_SAVED_NETWORKS]
  | startStep s hs ih =>
      unfold WIFI_PROVISION_Start
      split
      · exact ih
      · exact ih
  | stopStep s hs ih =>
      unfold WIFI_PROVISION_Stop
      split
      · exact ih
      · exact ih
  | deleteStep s hs ih =>
      unfold WIFI_PROVISION_Delete
      split
      · simp [uninitService, initService, wifiProvMAX_SAVED_NETWORKS]
      · exact ih
  | insertStep s e s' hs heq ih =>
      obtain ⟨hl, rfl⟩ := svcInsert_ok s e s' heq
      simp only [List.length_append, List.length_cons, List.length_nil]
      omega
  | overwriteStep s idx e s' hs heq ih =>
      obtain ⟨hl, rfl⟩ := svcOverwrite_ok s idx e s' heq
      simpa using ih
  | moveStep s cur new s' hs heq ih =>
      obtain ⟨hc, hn, rfl⟩ := svcMove_ok s cur new s' heq
      simp only []
      rw [List.length_insertIdx _ _
        (by rw [List.length_eraseIdx, if_pos hc]; omega)]
      rw [List.length_eraseIdx]
      rw [if_pos hc]
      omega
  | removeStep s idx s' hs heq ih =>
      obtain ⟨hl, rfl⟩ := svcRemove_ok s idx s' heq
      simp only []
      rw [List.length_eraseIdx]
      rw [if_pos hl]
      omega
  | connectStep s idx hs ih =>
      unfold svcConnect
      split
      · exact ih
      · exact ih
  | disconnectStep s hs ih => simpa [svcDisconnect] using ih
  | notifyStep s connId d enable hs ih => simpa [setNotifyEnabled] using ih

/-- A store of `n ≤ 8` copies of a fixed entry is reachable by `n`
successful inserts from the fresh state. -/
theorem reachable_replicate (n : Nat)
    (h : n ≤ wifiProvMAX_SAVED_NETWORKS) :
    ReachableService
      { initService with networks := List.replicate n (mkNet 0) } := by
  induction n with
  | zero => simpa using ReachableService.init
  | succ k ih =>
      have hk : k ≤ wifiProvMAX_SAVED_NETWORKS := Nat.le_of_succ_le h
      have hklt : k < wifiProvMAX_SAVED_NETWORKS := Nat.lt_of_succ_le h
      refine ReachableService.insertStep _ (mkNet 0) _ (ih hk) ?_
      unfold svcInsert insertNetwork
      simp only [List.length_replicate]
      rw [if_pos hklt]
      simp [List.replicate_succ']

/-! ## C1 -/

/-- C1: in every reachable service state the Network Store `count()`
never exceeds `wifiProvMAX_SAVED_NETWORKS = 8`; on a store already
holding 8 entries `insert` fails with `Full`, and the caller's store —
hence `count` — is unchanged. -/
theorem store_capacity_bound (s : WifiProvService)
    (hs : ReachableService s) (e : SavedNetwork) :
    count s.networks ≤ wifiProvMAX_SAVED_NETWORKS ∧
    (count s.networks = wifiProvMAX_SAVED_NETWORKS →
      insertNetwork s.networks e = .error .Full ∧
      svcInsert s e = .error .Full ∧
      count (insertOrKeep s.networks e).1 = count s.networks) := by
  refine ⟨reachable_length_le s hs, fun hfull => ?_⟩
  have hins : insertNetwork s.networks e = .error .Full := by
    unfold insertNetwork
    rw [if_neg]
    simp only [count] at hfull
    omega
  refine ⟨hins, ?_, ?_⟩
  · unfold svcInsert
    rw [hins]
  · unfold insertOrKeep
    rw [hins]

/-- Witness for C1 at the concrete reachable 8-entry store. -/
theorem store_capacity_bound_witness :
    count ({ initService with
               networks := List.replicate 8 (mkNet 0) } :
             WifiProvService).networks ≤ wifiProvMAX_SAVED_NETWORKS ∧
    (count ({ initService with
                networks := List.replicate 8 (mkNet 0) } :
              WifiProvService).networks = wifiProvMAX_SAVED_NETWORKS →
      insertNetwork (List.replicate 8 (mkNet 0)) (mkNet 1) =
        .error .Full ∧
      svcInsert { initService with
                    networks := List.replicate 8 (mkNet 0) } (mkNet 1) =
        .error .Full ∧
      count (insertOrKeep (List.replicate 8 (mkNet 0)) (mkNet 1)).1 =
        count (List.replicate 8 (mkNet 0))) :=
  store_capacity_bound _ (reachable_replicate 8 (by decide)) (mkNet 1)

/-! ## C2 -/

/-- Inserting at a valid position is a permutation with consing. -/
theorem insertIdx_perm_cons {α : Type _} (a : α) :
    ∀ (n : Nat) (l : List α), n ≤ l.length →
      (l.insertIdx n a).Perm (a :: l)
  | 0, l, _ => by simp
  | n + 1, [], h => absurd h (by simp)
  | n + 1, hd :: tl, h => by
      rw [List.insertIdx_succ_cons]
      exact .trans (.cons hd (insertIdx_perm_cons a n tl
        (Nat.le_of_succ_le_succ h))) (.swap a hd tl)

/-- A list is a permutation of its `n`-th element consed onto the list
with that element erased. -/
theorem perm_get_cons_eraseIdx {α : Type _} :
    ∀ (l : List α) (n : Nat) (h : n < l.length),
      l.Perm (l.get ⟨n, h⟩ :: l.eraseIdx n)
  | [], n, h => absurd h (by simp)
  | hd :: tl, 0, _ => by simp
  | hd :: tl, n + 1, h => by
      simp only [List.get_cons_succ, List.eraseIdx_cons_succ]
      exact .trans (.cons hd (perm_get_cons_eraseIdx tl n
        (Nat.lt_of_succ_lt_succ h))) (.swap _ hd _)

/-- C2: for valid indices `cur` and `new`, `move(cur, new)` succeeds and
is a rotation — the moved entry ends at position `new`, deleting it from
its new position recovers exactly the other entries in their old relative
order, and the result is a permutation of the original store. -/
theorem move_rotation (s : List SavedNetwork) (cur new : Nat)
    (hc : cur < s.length) (hn : new < s.length) :
    ∃ t, moveNetwork s cur new = .ok t ∧
      t.length = s.length ∧
      t[new]? = s[cur]? ∧
      t.eraseIdx new = s.eraseIdx cur ∧
      t.Perm s := by
  have hlen : (s.eraseIdx cur).length = s.length - 1 := by
    rw [List.length_eraseIdx, if_pos hc]
  have hnew' : new ≤ (s.eraseIdx cur).length := by omega
  refine ⟨(s.eraseIdx cur).insertIdx new (s.get ⟨cur, hc⟩),
    ?_, ?_, ?_, ?_, ?_⟩
  · unfold moveNetwork
    rw [dif_pos hc, if_pos hn]
  · rw [List.length_insertIdx _ _ hnew']
    omega
  · have hn2 : new < ((s.eraseIdx cur).insertIdx new
        (s.get ⟨cur, hc⟩)).length := by
      rw [List.length_insertIdx _ _ hnew']
      omega
    rw [List.getElem?_eq_getElem hn2, List.getElem?_eq_getElem hc]
    rw [List.getElem_insertIdx_self _ _ _ hnew']
    simp [List.get_eq_getElem]
  · exact List.eraseIdx_insertIdx new (s.eraseIdx cur)
  · exact .trans (insertIdx_perm_cons _ new _ hnew')
      (perm_get_cons_eraseIdx s cur hc).symm

/-- Witness for C2 at the spec's scenario: store `[A, B, C]`,
`Edit(curIdx = 2, newIdx = 0)` yields order `[C, A, B]`. -/
theorem move_rotation_witness :
    (∃ t, moveNetwork [mkNet 1, mkNet 2, mkNet 3] 2 0 = .ok t ∧
      t.length = ([mkNet 1, mkNet 2, mkNet 3] :
          List SavedNetwork).length ∧
      t[0]? = ([mkNet 1, mkNet 2, mkNet 3] : List SavedNetwork)[2]? ∧
      t.eraseIdx 0 =
        ([mkNet 1, mkNet 2, mkNet 3] : List SavedNetwork).eraseIdx 2 ∧
      t.Perm [mkNet 1, mkNet 2, mkNet 3]) ∧
    moveNetwork [mkNet 1, mkNet 2, mkNet 3] 2 0 =
      .ok [mkNet 3, mkNet 1, mkNet 2] :=
  ⟨move_rotation [mkNet 1, mkNet 2, mkNet 3] 2 0 (by decide) (by decide),
   rfl⟩

/-! ## C3 -/

/-- C3: for a valid index `idx`, `remove(idx)` succeeds, decreases
`count` by exactly one, keeps every entry below `idx` at its index and
shifts every subsequent entry up by one (keeping indices contiguous
`0..count-1`), and when `idx` equals the currently-connected index the
service clears `sConnectedIdx` to the `-1` sentinel. -/
theorem remove_shifts (s : WifiProvService) (idx : Nat)
    (h : idx < s.networks.length) :
    ∃ t, svcRemove s idx = .ok t ∧
      t.networks.length + 1 = s.networks.length ∧
      (∀ j, j < idx → t.networks[j]? = s.networks[j]?) ∧
      (∀ j, idx ≤ j → t.networks[j]? = s.networks[j + 1]?) ∧
      (s.sConnectedIdx = (idx : Int) →
        t.sConnectedIdx = wifiProvINVALID_NETWORK_INDEX) := by
  refine ⟨{ s with
              networks := s.networks.eraseIdx idx
              sConnectedIdx :=
                (if s.sConnectedIdx = (idx : Int) then
                   wifiProvINVALID_NETWORK_INDEX
                 else
                   s.sConnectedIdx) }, ?_, ?_, ?_, ?_, ?_⟩
  · unfold svcRemove removeNetwork
    rw [if_pos h]
  · simp only []
    rw [List.length_eraseIdx, if_pos h]
    omega
  · intro j hj
    simp only []
    rw [List.getElem?_eraseIdx, if_pos hj]
  · intro j hj
    simp only []
    rw [List.getElem?_eraseIdx, if_neg (by omega)]
  · intro hcon
    simp only []
    rw [if_pos hcon]

/-- Witness for C3 at the spec's scenario: store `[A, B]` with connected
index 1, `Delete(idx = 1)` leaves one entry and clears the connected
index to `-1`. -/
theorem remove_shifts_witness :
    ∃ t, svcRemove { initService with
                       networks := [mkNet 1, mkNet 2]
                       sConnectedIdx := 1 } 1 = .ok t ∧
      t.networks.length + 1 = 2 ∧
      t.sConnectedIdx = wifiProvINVALID_NETWORK_INDEX := by
  obtain ⟨t, h1, h2, _, _, h5⟩ :=
    remove_shifts { initService with
                      networks := [mkNet 1, mkNet 2]
                      sConnectedIdx := 1 } 1 (by decide)
  exact ⟨t, h1, by simpa using h2, h5 (by decide)⟩

/-! ## C4 -/

/-- C4: a single connection failure never terminates the Auto-Connect
Task: failing at `idx` moves to `Connecting (idx + 1)` when in range and
to `ExhaustedWaiting` otherwise — never to `Stopped` — and
`ExhaustedWaiting` restarts from `Connecting 0` once the fixed retry
interval has elapsed; the only transitions into `Stopped` are the `Stop`
and `Delete` requests. -/
theorem autoconnect_no_stop_on_failure (cnt i : Nat) (s : ConnState)
    (e : ConnEvent) :
    (connectTaskStep cnt (.Connecting i) .attemptFailure =
       if i + 1 < cnt then .Connecting (i + 1) else .ExhaustedWaiting) ∧
    (connectTaskStep cnt .ExhaustedWaiting
       (.retryTimer wifiProvSAVED_NETWORKS_CONNECTION_INTERVAL_MS) =
       .Connecting 0) ∧
    (connectTaskStep cnt (.Connecting i) .attemptFailure ≠ .Stopped) ∧
    (connectTaskStep cnt s e = .Stopped →
       e = .stopReq ∨ e = .deleteReq ∨ s = .Stopped) := by
  refine ⟨rfl, ?_, ?_, ?_⟩
  · simp [connectTaskStep]
  · simp only [connectTaskStep]
    split <;> simp
  · cases s <;> cases e <;> simp [connectTaskStep] <;> (split <;> simp)

/-- Witness for C4: with 3 saved networks, failure at index 1 advances
to index 2, the retry timer restarts the cycle, and the `Stop` request
is recognized as a source of `Stopped`. -/
theorem autoconnect_no_stop_on_failure_witness :
    (connectTaskStep 3 (.Connecting 1) .attemptFailure =
       if 1 + 1 < 3 then ConnState.Connecting (1 + 1)
       else .ExhaustedWaiting) ∧
    (connectTaskStep 3 .ExhaustedWaiting
       (.retryTimer wifiProvSAVED_NETWORKS_CONNECTION_INTERVAL_MS) =
       .Connecting 0) ∧
    (connectTaskStep 3 (.Connecting 1) .attemptFailure ≠ .Stopped) ∧
    (ConnEvent.stopReq = ConnEvent.stopReq ∨
       ConnEvent.stopReq = ConnEvent.deleteReq ∨
       ConnState.Idle = ConnState.Stopped) := by
  have h := autoconnect_no_stop_on_failure 3 1 ConnState.Idle
    ConnEvent.stopReq
  exact ⟨h.1, h.2.1, h.2.2.1, h.2.2.2 rfl⟩

/-! ## C5 -/

/-- A reachable service state: two saved entries, connected at priority
index 1 (built by two inserts and one auto-connect commit). -/
def exTwoConnected : WifiProvService :=
  { initService with
      networks := [mkNet 1, mkNet 2]
      sConnectedIdx := 1
      eventBits := eWIFIPROVConnected }

/-- C5 fails as stated: in the reachable state with two entries and
`sConnectedIdx = 1`, removing index 0 (which only clears the connected
index when it equals the removed index) leaves `sConnectedIdx = 1` on a
one-entry store — not `-1` and not a valid index. -/
theorem connectedIdx_invariant_counterexample :
    ReachableService exTwoConnected ∧
    connectedIdxValid exTwoConnected ∧
    svcRemove exTwoConnected 0 =
      .ok { exTwoConnected with networks := [mkNet 2] } ∧
    ¬ connectedIdxValid { exTwoConnected with networks := [mkNet 2] } := by
  refine ⟨?_, by decide, rfl, by decide⟩
  have h1 : ReachableService { initService with networks := [mkNet 1] } :=
    .insertStep initService (mkNet 1) _ .init rfl
  have h2 : ReachableService
      { initService with networks := [mkNet 1, mkNet 2] } :=
    .insertStep _ (mkNet 2) _ h1 rfl
  have h3 := ReachableService.connectStep _ 1 h2
  have heq : svcConnect
      { initService with networks := [mkNet 1, mkNet 2] } 1 =
      exTwoConnected := rfl
  exact heq ▸ h3

/-- C5 (amended): if `sConnectedIdx` is `-1` or a valid index, then
insert, overwrite, move, connect and disconnect preserve that invariant,
and remove preserves it provided the removed index is not below the
connected index or the connected index is not the last slot.  (As the
counterexample shows, removing below a last-slot connected index breaks
it.) -/
theorem connectedIdx_invariant_amended (s : WifiProvService)
    (h : connectedIdxValid s) :
    (∀ e s', svcInsert s e = .ok s' → connectedIdxValid s') ∧
    (∀ idx e s', svcOverwrite s idx e = .ok s' → connectedIdxValid s') ∧
    (∀ cur new s', svcMove s cur new = .ok s' →
       connectedIdxValid s') ∧
    (∀ idx, connectedIdxValid (svcConnect s idx)) ∧
    connectedIdxValid (svcDisconnect s) ∧
    (∀ idx s', svcRemove s idx = .ok s' →
       (s.sConnectedIdx ≤ (idx : Int) ∨
         s.sConnectedIdx + 1 < (s.networks.length : Int)) →
       connectedIdxValid s') := by
  refine ⟨?_, ?_, ?_, ?_, ?_, ?_⟩
  · intro e s' heq
    obtain ⟨hl, rfl⟩ := svcInsert_ok s e s' heq
    simp only [connectedIdxValid, wifiProvINVALID_NETWORK_INDEX,
      List.length_append, List.length_cons, List.length_nil] at h ⊢
    omega
  · intro idx e s' heq
    obtain ⟨hl, rfl⟩ := svcOverwrite_ok s idx e s' heq
    simp only [connectedIdxValid, wifiProvINVALID_NETWORK_INDEX,
      List.length_set] at h ⊢
    omega
  · intro cur new s' heq
    obtain ⟨hc, hn, rfl⟩ := svcMove_ok s cur new s' heq
    have hlen : ((s.networks.eraseIdx cur).insertIdx new
        (s.networks.get ⟨cur, hc⟩)).length = s.networks.length := by
      rw [List.length_insertIdx _ _
        (by rw [List.length_eraseIdx, if_pos hc]; omega)]
      rw [List.length_eraseIdx, if_pos hc]
      omega
    simp only [connectedIdxValid, wifiProvINVALID_NETWORK_INDEX] at h ⊢
    rw [hlen]
    omega
  · intro idx
    unfold svcConnect
    split
    · rename_i hidx
      simp only [connectedIdxValid, wifiProvINVALID_NETWORK_INDEX]
      omega
    · exact h
  · simp only [svcDisconnect, connectedIdxValid,
      wifiProvINVALID_NETWORK_INDEX]
    left
    trivial
  · intro idx s' heq hcond
    obtain ⟨hl, rfl⟩ := svcRemove_ok s idx s' heq
    simp only [connectedIdxValid, wifiProvINVALID_NETWORK_INDEX,
      List.length_eraseIdx] at h ⊢
    rw [if_pos hl]
    split
    · exact .inl rfl
    · rename_i hne
      omega

/-- Witness for C5 (amended) at the concrete connected two-entry
state. -/
theorem connectedIdx_invariant_amended_witness :
    connectedIdxValid (svcDisconnect exTwoConnected) ∧
    connectedIdxValid (svcConnect exTwoConnected 0) ∧
    connectedIdxValid { exTwoConnected with
                          networks := [mkNet 1]
                          sConnectedIdx :=
                            wifiProvINVALID_NETWORK_INDEX } := by
  have h := connectedIdx_invariant_amended exTwoConnected (by decide)
  refine ⟨h.2.2.2.2.1, h.2.2.2.1 0, ?_⟩
  exact h.2.2.2.2.2 1 _ rfl (.inl (by decide))

/-! ## C6 -/

/-- C6: `Init` and `Stop` are idempotent — a second `Init` without an
intervening `Delete` returns success and leaves the whole service state
(store contents included) unchanged, and two consecutive `Stop` calls
end in the same state as one. -/
theorem init_stop_idempotent (s : WifiProvService) :
    WIFI_PROVISION_Init (WIFI_PROVISION_Init s).1 =
      ((WIFI_PROVISION_Init s).1, true) ∧
    (WIFI_PROVISION_Init (WIFI_PROVISION_Init s).1).1.networks =
      (WIFI_PROVISION_Init s).1.networks ∧
    (WIFI_PROVISION_Stop (WIFI_PROVISION_Stop s).1).1 =
      (WIFI_PROVISION_Stop s).1 := by
  by_cases hi : s.xInit = true
  · refine ⟨?_, ?_, ?_⟩
    · simp [WIFI_PROVISION_Init, hi]
    · simp [WIFI_PROVISION_Init, hi]
    · simp [WIFI_PROVISION_Stop, hi, Nat.or_assoc, Nat.or_self]
  · refine ⟨?_, ?_, ?_⟩
    · simp [WIFI_PROVISION_Init, hi, initService]
    · simp [WIFI_PROVISION_Init, hi, initService]
    · simp [WIFI_PROVISION_Stop, hi]

/-! ## C7 -/

/-- C7: `IsConnected(xWaitTicks)` returns success exactly when the
`eWIFIPROVConnected` event bit is up at some tick within the wait
window, and the event-group trace after the wait is exactly the trace
before it — the wait never mutates the flags. -/
theorem isConnected_nonconsuming (bits : Nat → Nat) (w : Nat) :
    ((WIFI_PROVISION_IsConnected bits w).1 = true ↔
       ∃ t, t ≤ w ∧ bits t &&& eWIFIPROVConnected ≠ 0) ∧
    (WIFI_PROVISION_IsConnected bits w).2 = bits := by
  constructor
  · unfold WIFI_PROVISION_IsConnected
    simp [List.any_eq_true, List.mem_range, Nat.lt_succ_iff]
  · rfl

/-! ## C8 -/

/-- C8: the wire schema consists of exactly the thirteen JSON keys fixed
by the header; a List response's per-network entry carries
`wifiProvNUM_NETWORK_INFO_MESG_PARAMS = 8` distinct fields drawn from
those keys, and a Save/Edit/Delete response carries exactly
`wifiProvNUM_STATUS_MESG_PARAMS = 1` field, the `status` key. -/
theorem wire_schema_keys :
    allProtocolKeys = ["maxNetworks", "timeout", "security", "ssid",
      "bssid", "freqMhz", "rssi", "psk", "status", "hidden", "connected",
      "index", "newIndex"] ∧
    networkInfoMesgKeys.length = wifiProvNUM_NETWORK_INFO_MESG_PARAMS ∧
    wifiProvNUM_NETWORK_INFO_MESG_PARAMS = 8 ∧
    networkInfoMesgKeys.all (fun k => allProtocolKeys.contains k) =
      true ∧
    networkInfoMesgKeys.Nodup ∧
    statusMesgKeys = [wifiProvSTATUS_KEY] ∧
    statusMesgKeys.length = wifiProvNUM_STATUS_MESG_PARAMS ∧
    wifiProvNUM_STATUS_MESG_PARAMS = 1 := by
  refine ⟨rfl, rfl, rfl, by decide, by decide, rfl, rfl, rfl⟩

/-! ## C9 -/

/-- C9: the sentinel constants are exactly `-100` for an invalid or
unknown RSSI and `-1` for a not-saved index, and every NetworkInfo
projection of an entry without a signal measurement or without a saved
index carries exactly those values. -/
theorem sentinel_values :
    wifiProvINVALID_NETWORK_RSSI = -100 ∧
    wifiProvINVALID_NETWORK_INDEX = -1 ∧
    (∀ (status : Nat) (ssid : String) (bssid : List Nat)
       (security : Nat) (hidden connected : Nat),
       (networkInfoOfScanResult status ssid bssid security none hidden
          connected).cRSSI = -100 ∧
       (networkInfoOfScanResult status ssid bssid security none hidden
          connected).sSavedIdx = -1) ∧
    (∀ (e : SavedNetwork) (idx connected status : Nat),
       (networkInfoOfSaved e idx connected status).cRSSI = -100) :=
  ⟨rfl, rfl, fun _ _ _ _ _ _ => ⟨rfl, rfl⟩, fun _ _ _ _ => rfl⟩

/-! ## C10 -/

/-- C10: the notify-enabled flags of the four endpoints live in the one
16-bit `usNotifyClientEnabled` bitmask paired with the one
`usBLEConnId`, so at most one peer connection's preferences are
represented at any time; a descriptor write from a different connection
replaces the previous connection's preferences (no notification reaches
the old connection afterwards), and the mask stays within 16 bits. -/
theorem notify_single_connection (s : WifiProvService) (c c' : Nat)
    (d d' : Fin wifiProvNUM_DESCRS) (enable : Bool) :
    (∀ d1 d2 : Fin wifiProvNUM_DESCRS,
       notifyAllowed s c d1 = true → notifyAllowed s c' d2 = true →
       c = c') ∧
    (c' ≠ c → notifyAllowed (setNotifyEnabled s c d enable) c' d' =
       false) ∧
    (s.usNotifyClientEnabled < 2 ^ 16 →
       (setNotifyEnabled s c d enable).usNotifyClientEnabled <
         2 ^ 16) := by
  refine ⟨?_, ?_, ?_⟩
  · intro d1 d2 h1 h2
    simp only [notifyAllowed, Bool.and_eq_true, beq_iff_eq] at h1 h2
    exact h1.1 ▸ h2.1
  · intro hne
    simp only [notifyAllowed, setNotifyEnabled, Bool.and_eq_false_iff]
    left
    simpa using fun h => hne h.symm
  · intro hlt
    unfold setNotifyEnabled
    cases enable with
    | true =>
        simp only []
        apply Nat.or_lt_two_pow hlt
        rw [Nat.shiftLeft_eq, one_mul]
        have hd : (d : Nat) < 4 := d.isLt
        exact Nat.pow_lt_pow_right (by omega) (by omega)
    | false =>
        simp only []
        exact Nat.lt_of_le_of_lt Nat.and_le_left hlt

/-- Witness for C10 at concrete connection ids 5 and 7 and the List
endpoint descriptor. -/
theorem notify_single_connection_witness :
    (5 : Nat) = 5 ∧
    notifyAllowed
      (setNotifyEnabled initService 7 ⟨0, by decide⟩ true) 5
      ⟨0, by decide⟩ = false ∧
    (setNotifyEnabled initService 7 ⟨0, by decide⟩
       true).usNotifyClientEnabled < 2 ^ 16 := by
  have h1 := notify_single_connection
    (setNotifyEnabled initService 5 ⟨0, by decide⟩ true) 5 5
    ⟨0, by decide⟩ ⟨0, by decide⟩ true
  have h2 := notify_single_connection initService 7 5 ⟨0, by decide⟩
    ⟨0, by decide⟩ true
  exact ⟨h1.1 ⟨0, by decide⟩ ⟨0, by decide⟩ (by decide) (by decide),
         h2.2.1 (by decide), h2.2.2 (by decide)⟩

end WifiProv
